import Mathlib

/-!
Shallow embedding of the Base On-Chain Pay mini app (repository
`Base-On-chain-Pay-Mini-App`).  The component under verification is the
ethers-v6 variant of `BasePayMiniApp` in `src/unnamed/part_000` (the variant
the repository README describes: ENS resolution, EIP-1559 fee suggestion,
input validation and balance display).  React `useState` fields become the
fields of `AppState`; the injected wallet provider and signer are modelled
as an environment record supplying the outcome of each asynchronous call,
and each workflow function additionally returns the list of external calls
it performed, in order, so that "no broadcast happened" and "exactly one
broadcast then one wait" are provable statements.
-/

namespace BasePay

/-- An EVM network as returned by `provider.getNetwork()` (ethers `Network`
with the fields the component reads: `chainId` and `name`). -/
structure Network where
  chainId : Nat
  name : String
  deriving Repr, DecidableEq

/-- The React component state of `BasePayMiniApp` (`src/unnamed/part_000`
lines 38-46).  `provider` and `signer` are opaque library handles that the
code only tests for null-ness, so they are modelled as the Booleans
`providerConnected` and `hasSigner`. -/
structure AppState where
  providerConnected : Bool
  hasSigner : Bool
  address : String
  balance : String
  network : Option Network
  recipient : String
  amount : String
  status : String
  sending : Bool
  deriving Repr, DecidableEq

/-- `BASE_CHAIN_ID` constant (line 48): Base mainnet. -/
def BASE_CHAIN_ID : Nat := 8453

/-- Decimal value of a digit string, most significant digit first. -/
def digitsVal (cs : List Char) : Nat :=
  cs.foldl (fun a c => a * 10 + (c.toNat - 48)) 0

/-- An exact decimal number: the value is `mantissa / 10 ^ scale`.  Used
instead of `Rat` so that every comparison reduces to integer arithmetic
(the value is nonpositive exactly when the mantissa is). -/
structure JsDecimal where
  mantissa : Int
  scale : Nat
  deriving Repr, DecidableEq

/-- Models JavaScript `Number(s)` on the plain decimal-numeral fragment:
an optional sign, then digits with at most one decimal point (at least one
digit overall).  `Number("") = 0` as in JavaScript; anything outside this
fragment (exponents, hex literals, `Infinity`, stray characters) is `none`,
standing for `NaN`. -/
def jsNumberDec (s : String) : Option JsDecimal :=
  if s == "" then some { mantissa := 0, scale := 0 }
  else
    let cs := s.data
    let signNeg := cs.head? == some '-'
    let rest := if signNeg || cs.head? == some '+' then cs.tail else cs
    let ip := rest.takeWhile Char.isDigit
    let r2 := rest.drop ip.length
    let sgn : Int := if signNeg then -1 else 1
    match r2 with
    | [] =>
        if ip.isEmpty then none
        else some { mantissa := sgn * (digitsVal ip : Int), scale := 0 }
    | '.' :: fr =>
        let fp := fr.takeWhile Char.isDigit
        if fr.length ≠ fp.length then none
        else if ip.isEmpty && fp.isEmpty then none
        else some
          (JsDecimal.mk
            (sgn * ((digitsVal ip * 10 ^ fp.length + digitsVal fp : Nat) : Int))
            fp.length)
    | _ => none

/-- The parsed number is `≤ 0`: as `10 ^ scale > 0`, that is exactly a
nonpositive mantissa. -/
def JsDecimal.nonpos (d : JsDecimal) : Bool := d.mantissa ≤ 0

/-- The amount validation of `sendPayment` (line 197):
`!amount || isNaN(Number(amount)) || Number(amount) <= 0`.
An empty string is falsy; `none` from `jsNumberDec` is `NaN`. -/
def invalidAmount (s : String) : Bool :=
  s == "" || (jsNumberDec s).isNone ||
    ((jsNumberDec s).getD (JsDecimal.mk 0 0)).nonpos

/-- Models ethers `parseEther` on unsigned decimal numerals: digits with at
most one decimal point, at least one digit, at most 18 fractional digits;
the result is the value in wei.  `none` stands for the function throwing. -/
def parseEther (s : String) : Option Nat :=
  let cs := s.data
  let ip := cs.takeWhile Char.isDigit
  let r2 := cs.drop ip.length
  match r2 with
  | [] => if ip.isEmpty then none else some (digitsVal ip * 10 ^ 18)
  | '.' :: fr =>
      let fp := fr.takeWhile Char.isDigit
      if fr.length ≠ fp.length then none
      else if ip.isEmpty && fp.isEmpty then none
      else if 18 < fp.length then none
      else some (digitsVal ip * 10 ^ 18 + digitsVal fp * 10 ^ (18 - fp.length))
  | _ => none

/-- Left-pad a string with zeros to length `n`. -/
def padLeftZeros (s : String) (n : Nat) : String :=
  String.mk (List.replicate (n - s.length) '0') ++ s

/-- Drop trailing `'0'` characters. -/
def dropTrailingZeros (s : String) : String :=
  String.mk ((s.data.reverse.dropWhile (fun c => c == '0')).reverse)

/-- Models ethers `formatEther`: wei to a decimal ether string, trailing
zeros trimmed but always at least one fractional digit (`formatEther 0 =
"0.0"`). -/
def formatEther (wei : Nat) : String :=
  let ip := wei / 10 ^ 18
  let frac := dropTrailingZeros (padLeftZeros (toString (wei % 10 ^ 18)) 18)
  toString ip ++ "." ++ (if frac = "" then "0" else frac)

/-- Models JavaScript `String.prototype.trim`: strip leading and trailing
whitespace (written over character lists so it evaluates by kernel
reduction, unlike `String.trim`). -/
def jsTrim (s : String) : String :=
  String.mk
    (((s.data.dropWhile Char.isWhitespace).reverse.dropWhile
        Char.isWhitespace).reverse)

/-- Models ethers `isAddress` on its plain-address fragment: `0x` followed
by exactly 40 lowercase hexadecimal digits.  Mixed-case EIP-55 checksummed
addresses (whose validation needs keccak-256) are outside the modelled
fragment and map to `false`. -/
def isAddress (s : String) : Bool :=
  match s.data with
  | '0' :: 'x' :: body =>
      body.length == 40 &&
        body.all (fun c => c.isDigit || ('a' ≤ c && c ≤ 'f'))
  | _ => false

/-- Models ethers `hexValue`: minimal `0x`-prefixed hex representation. -/
def hexValue (n : Nat) : String :=
  "0x" ++ String.mk (Nat.toDigits 16 n)

/-- Fee data returned by `provider.getFeeData()`; each field is `none` when
the provider returns `null` for it. -/
structure FeeData where
  maxFeePerGas : Option Nat
  maxPriorityFeePerGas : Option Nat
  gasPrice : Option Nat
  deriving Repr, DecidableEq

/-- The transaction request object built by `sendPayment` (lines 224-234).
`toAddress` embeds the request's `to` field (`to` is reserved in Lean). -/
structure TxRequest where
  toAddress : String
  value : Nat
  maxFeePerGas : Option Nat
  maxPriorityFeePerGas : Option Nat
  gasPrice : Option Nat
  deriving Repr, DecidableEq

/-- A transaction receipt as read by the component (`status`,
`blockNumber`). -/
structure TxReceipt where
  status : Nat
  blockNumber : Nat
  deriving Repr, DecidableEq

/-- A thrown JavaScript error as the component inspects it: an optional
numeric `code` (EIP-1193 user rejection is 4001) and a `message`. -/
structure JsError where
  code : Option Int
  message : String
  deriving Repr, DecidableEq

/-- Outcome of `signer.sendTransaction(tx)`. -/
inductive TxSendResult where
  | success (hash : String)
  | thrown (e : JsError)
  deriving Repr, DecidableEq

/-- Outcome of `response.wait(1)`; `completed none` models a null receipt. -/
inductive TxWaitResult where
  | completed (r : Option TxReceipt)
  | thrown (e : JsError)
  deriving Repr, DecidableEq

/-- The external provider/signer calls `sendPayment` can perform, recorded
in order in a trace. -/
inductive WalletCall where
  | resolveName (name : String)
  | getBalance (addr : String)
  | getFeeData
  | sendTransaction (tx : TxRequest)
  | txWait (confirmations : Nat)
  deriving Repr, DecidableEq

/-- Environment for one `sendPayment` run: outcome of each external call the
code may make, in program order.  `balanceBefore` is the balance read for
the sufficiency check, `balanceAfter` the refresh after confirmation. -/
structure SendEnv where
  resolveName : String → Option String
  balanceBefore : Nat
  feeData : FeeData
  sendResult : TxSendResult
  waitResult : TxWaitResult
  balanceAfter : Nat

/-- JavaScript truthiness of an optional bigint fee field: `null` and `0n`
are falsy. -/
def feeTruthy : Option Nat → Bool
  | none => false
  | some n => n ≠ 0

/-- The `catch` block of `sendPayment` (lines 249-255): code 4001 is an
explicit user rejection, anything else surfaces the error message. -/
def sendFailedStatus (e : JsError) : String :=
  if e.code == some 4001 then "User rejected the transaction"
  else "Send failed: " ++ e.message

/-- Stand-in for the message of the error ethers `parseEther` throws on a
malformed value (the exact library text is irrelevant to every property
proved below). -/
def parseEtherErrorMessage : String := "invalid decimal value"

/-- The recipient-resolution step of `sendPayment` (lines 202-211): a
well-formed address is used as-is, anything else goes through ENS
resolution.  Returns the resolved recipient (or `none`) and the external
calls made. -/
def resolveRecipientStep (env : SendEnv) (trimmed : String) :
    Option String × List WalletCall :=
  if isAddress trimmed then (some trimmed, [])
  else (env.resolveName trimmed, [WalletCall.resolveName trimmed])

/-- The transaction object construction of `sendPayment` (lines 224-234):
an EIP-1559 pair when the fee data supplies both (truthy) values, else a
flat gas price when supplied, else neither. -/
def buildTx (resolved : String) (value : Nat) (fd : FeeData) : TxRequest :=
  if feeTruthy fd.maxFeePerGas && feeTruthy fd.maxPriorityFeePerGas then
    { toAddress := resolved, value := value, maxFeePerGas := fd.maxFeePerGas,
      maxPriorityFeePerGas := fd.maxPriorityFeePerGas, gasPrice := none }
  else if feeTruthy fd.gasPrice then
    { toAddress := resolved, value := value, maxFeePerGas := none,
      maxPriorityFeePerGas := none, gasPrice := fd.gasPrice }
  else
    { toAddress := resolved, value := value, maxFeePerGas := none,
      maxPriorityFeePerGas := none, gasPrice := none }

/-- Embedding of `sendPayment` (`src/unnamed/part_000` lines 190-259).
Returns the final component state and the ordered trace of external calls.
Transient statuses that every continuation overwrites before the function
returns ("Preparing transaction…", "Transaction sent — hash: …") are not
part of the final state and are therefore not modelled; the `finally`
block's `setSending(false)` applies on every path that entered the `try`
block, including early `return`s inside it. -/
def sendPayment (st : AppState) (env : SendEnv) : AppState × List WalletCall :=
  if !st.providerConnected || !st.hasSigner then
    ({ st with status := "Wallet not connected" }, [])
  else if invalidAmount st.amount then
    ({ st with status := "Invalid amount (must be a number > 0)" }, [])
  else
    let trimmed := jsTrim st.recipient
    match resolveRecipientStep env trimmed with
    | (none, tr) =>
        ({ st with status := "Recipient is not a valid address or resolvable ENS name",
                   sending := false }, tr)
    | (some resolved, tr0) =>
      match parseEther st.amount with
      | none =>
          ({ st with status := "Send failed: " ++ parseEtherErrorMessage,
                     sending := false }, tr0)
      | some value =>
        let tr1 := tr0 ++ [WalletCall.getBalance st.address]
        if env.balanceBefore < value then
          ({ st with
              status := "Insufficient balance for the requested amount (does not include gas).",
              sending := false }, tr1)
        else
          let tr2 := tr1 ++ [WalletCall.getFeeData]
          let tx := buildTx resolved value env.feeData
          let tr3 := tr2 ++ [WalletCall.sendTransaction tx]
          match env.sendResult with
          | TxSendResult.thrown e =>
              ({ st with status := sendFailedStatus e, sending := false }, tr3)
          | TxSendResult.success hash =>
            let tr4 := tr3 ++ [WalletCall.txWait 1]
            match env.waitResult with
            | TxWaitResult.thrown e =>
                ({ st with status := sendFailedStatus e, sending := false }, tr4)
            | TxWaitResult.completed r =>
              match r with
              | some receipt =>
                if receipt.status = 1 then
                  ({ st with
                      status := "Payment confirmed in block " ++
                        toString receipt.blockNumber ++ ". Tx: " ++ hash,
                      balance := formatEther env.balanceAfter,
                      recipient := "", amount := "", sending := false },
                   tr4 ++ [WalletCall.getBalance st.address])
                else
                  ({ st with status := "Transaction failed or reverted",
                             sending := false }, tr4)
              | none =>
                  ({ st with status := "Transaction failed or reverted",
                             sending := false }, tr4)

/-- Environment for `setupSigner` (lines 160-175): the outcome of each of
its awaited calls, in program order (`provider.getSigner()`,
`signer.getAddress()`, `provider.getBalance(addr)`, `provider.getNetwork()`).
An `Except.error` models the call rejecting. -/
structure SetupSignerEnv where
  getSigner : Except JsError Unit
  getAddress : Except JsError String
  getBalance : Except JsError Nat
  getNetwork : Except JsError Network

/-- The catch branch of `setupSigner` (lines 171-174): warn, and if the
`address` state captured at render time is empty, prompt for approval.
`renderAddress` is that captured value. -/
def setupSignerFail (renderAddress : String) (st : AppState) : AppState :=
  if renderAddress = "" then
    { st with status := "Please connect wallet (approve account access)." }
  else st

/-- Embedding of `setupSigner` (`src/unnamed/part_000` lines 160-175).
State updates already performed before a later call rejects are kept, as in
the source, and the whole body is wrapped in try/catch, so the function
itself never fails. -/
def setupSigner (st : AppState) (env : SetupSignerEnv) : AppState :=
  match env.getSigner with
  | Except.error _ => setupSignerFail st.address st
  | Except.ok _ =>
    let st1 := { st with hasSigner := true }
    match env.getAddress with
    | Except.error _ => setupSignerFail st.address st1
    | Except.ok addr =>
      let st2 := { st1 with address := addr }
      match env.getBalance with
      | Except.error _ => setupSignerFail st.address st2
      | Except.ok bal =>
        let st3 := { st2 with balance := formatEther bal }
        match env.getNetwork with
        | Except.error _ => setupSignerFail st.address st3
        | Except.ok net => { st3 with network := some net }

/-- Embedding of `resetConnection` (`src/unnamed/part_000` lines 177-188):
clears signer, address, balance, network and status; the provider is
re-created from `window.ethereum` when one is injected (`hasInjected`). -/
def resetConnection (st : AppState) (hasInjected : Bool) : AppState :=
  { st with providerConnected := hasInjected, hasSigner := false,
            address := "", balance := "0.0", network := none, status := "" }

/-- Embedding of the `accountsChanged` event handler (`src/unnamed/part_000`
lines 66-74): an empty (or missing) account list resets the connection,
otherwise the first account becomes the address and the signer is set up
again. -/
def accountsChanged (st : AppState) (hasInjected : Bool)
    (accounts : List String) (senv : SetupSignerEnv) : AppState :=
  match accounts with
  | [] => resetConnection st hasInjected
  | a :: _ => setupSigner { st with address := a } senv

/-- The parameter object of a `wallet_addEthereumChain` request
(lines 131-139). -/
structure AddChainParams where
  chainId : String
  chainName : String
  nativeCurrencyName : String
  nativeCurrencySymbol : String
  nativeCurrencyDecimals : Nat
  rpcUrls : List String
  blockExplorerUrls : List String
  deriving Repr, DecidableEq

/-- The literal Base-chain registration parameters of lines 131-139. -/
def baseChainParams : AddChainParams :=
  { chainId := hexValue BASE_CHAIN_ID, chainName := "Base",
    nativeCurrencyName := "Ether", nativeCurrencySymbol := "ETH",
    nativeCurrencyDecimals := 18,
    rpcUrls := ["https://mainnet.base.org"],
    blockExplorerUrls := ["https://basescan.org"] }

/-- The provider requests `connectWallet` can issue, recorded in order. -/
inductive RpcCall where
  | requestAccounts
  | getNetwork
  | switchChain (chainIdHex : String)
  | addChain (p : AddChainParams)
  deriving Repr, DecidableEq

/-- Environment for one `connectWallet` run: the outcome of each provider
request it may make, in program order. -/
structure ConnectEnv where
  requestAccounts : Except JsError Unit
  getNetwork1 : Except JsError Network
  switchAttempt1 : Except JsError Unit
  addAttempt : Except JsError Unit
  switchAttempt2 : Except JsError Unit
  getNetwork2 : Except JsError Network
  signerEnv : SetupSignerEnv

/-- The outer catch of `connectWallet` (lines 154-157). -/
def connectionFailedStatus (e : JsError) : String :=
  "Connection failed: " ++ e.message

/-- The nested switch/add/switch-again dance of `connectWallet`
(lines 125-147), entered only when the active chain differs from Base.
Returns the state update it performs and the requests it issued.  A failure
of the first switch falls into the `wallet_addEthereumChain` attempt; a
failure of the add, or of the retried switch, is swallowed by the inner
catch, which only sets a manual-switch status. -/
def attemptSwitchToBase (st : AppState) (env : ConnectEnv) :
    AppState × List RpcCall :=
  match env.switchAttempt1 with
  | Except.ok _ => (st, [RpcCall.switchChain (hexValue BASE_CHAIN_ID)])
  | Except.error _ =>
    match env.addAttempt with
    | Except.ok _ =>
      match env.switchAttempt2 with
      | Except.ok _ =>
          (st, [RpcCall.switchChain (hexValue BASE_CHAIN_ID),
                RpcCall.addChain baseChainParams,
                RpcCall.switchChain (hexValue BASE_CHAIN_ID)])
      | Except.error _ =>
          ({ st with status := "Please switch your wallet to the Base network manually." },
           [RpcCall.switchChain (hexValue BASE_CHAIN_ID),
            RpcCall.addChain baseChainParams,
            RpcCall.switchChain (hexValue BASE_CHAIN_ID)])
    | Except.error _ =>
        ({ st with status := "Please switch your wallet to the Base network manually." },
         [RpcCall.switchChain (hexValue BASE_CHAIN_ID),
          RpcCall.addChain baseChainParams])

/-- Embedding of `connectWallet` (`src/unnamed/part_000` lines 111-158).
Transient statuses overwritten on every continuation ("Requesting wallet
connection…", the attempting-to-switch notice) are not part of any returned
state.  After the switch dance the code re-reads the network, runs
`setupSigner` (which cannot throw) and unconditionally sets the status to
"Connected"; a rejection of `eth_requestAccounts` or of either
`getNetwork` lands in the outer catch. -/
def connectWallet (st : AppState) (env : ConnectEnv) :
    AppState × List RpcCall :=
  if !st.providerConnected then
    ({ st with status := "No injected wallet found. Install MetaMask or Coinbase Wallet." }, [])
  else
    match env.requestAccounts with
    | Except.error e =>
        ({ st with status := connectionFailedStatus e }, [RpcCall.requestAccounts])
    | Except.ok _ =>
      match env.getNetwork1 with
      | Except.error e =>
          ({ st with status := connectionFailedStatus e },
           [RpcCall.requestAccounts, RpcCall.getNetwork])
      | Except.ok net =>
        let st1 := { st with network := some net }
        if net.chainId ≠ BASE_CHAIN_ID then
          let danced := attemptSwitchToBase st1 env
          let tr0 := [RpcCall.requestAccounts, RpcCall.getNetwork] ++ danced.2
          match env.getNetwork2 with
          | Except.error e =>
              ({ danced.1 with status := connectionFailedStatus e },
               tr0 ++ [RpcCall.getNetwork])
          | Except.ok newNet =>
              let st2 := { danced.1 with network := some newNet }
              ({ setupSigner st2 env.signerEnv with status := "Connected" },
               tr0 ++ [RpcCall.getNetwork])
        else
          ({ setupSigner st1 env.signerEnv with status := "Connected" },
           [RpcCall.requestAccounts, RpcCall.getNetwork])

/-- The call is a transaction broadcast (`signer.sendTransaction`). -/
def isBroadcast : WalletCall → Bool
  | WalletCall.sendTransaction _ => true
  | _ => false

/-- The call is a confirmation wait (`response.wait`). -/
def isWait : WalletCall → Bool
  | WalletCall.txWait _ => true
  | _ => false

/-- The call is a broadcast or a confirmation wait. -/
def isBroadcastOrWait (c : WalletCall) : Bool := isBroadcast c || isWait c

/-- The call is a fee-data fetch or a broadcast. -/
def isFeeOrBroadcast : WalletCall → Bool
  | WalletCall.getFeeData => true
  | WalletCall.sendTransaction _ => true
  | _ => false

lemma resolveRecipientStep_trace_filter (env : SendEnv) (t : String)
    (p : WalletCall → Bool) (hp : p (WalletCall.resolveName t) = false) :
    List.filter p (resolveRecipientStep env t).2 = [] := by
  unfold resolveRecipientStep
  split <;> simp [hp]

/-- C1: whenever the connected account's live balance is strictly below the
requested amount, `sendPayment` sets the insufficient-balance status and its
call trace contains no transaction broadcast. -/
theorem sendPayment_insufficient_balance_rejects
    (st : AppState) (env : SendEnv) (r : String) (v : Nat)
    (hconn : st.providerConnected = true) (hsig : st.hasSigner = true)
    (hamt : invalidAmount st.amount = false)
    (hres : (resolveRecipientStep env (jsTrim st.recipient)).1 = some r)
    (hval : parseEther st.amount = some v)
    (hbal : env.balanceBefore < v) :
    (sendPayment st env).1.status =
      "Insufficient balance for the requested amount (does not include gas)." ∧
    List.filter isBroadcast (sendPayment st env).2 = [] := by
  have htr := resolveRecipientStep_trace_filter env (jsTrim st.recipient) isBroadcast rfl
  unfold sendPayment
  rcases hrs : resolveRecipientStep env (jsTrim st.recipient) with ⟨o, tr⟩
  rw [hrs] at hres htr
  cases o with
  | none => exact absurd hres (by simp)
  | some a =>
      simp [hconn, hsig, hamt, hrs, hval, hbal, htr, List.filter_append,
        isBroadcast]

/-- A concrete connected component state used by the witnesses below:
wallet connected, amount `"0.01"`, a well-formed lowercase recipient. -/
def wSt : AppState :=
  { providerConnected := true, hasSigner := true,
    address := "0xabcdefabcdefabcdefabcdefabcdefabcdefabcd",
    balance := "1.0", network := some { chainId := 8453, name := "base" },
    recipient := "0x1234567890abcdef1234567890abcdef12345678",
    amount := "0.01", status := "", sending := false }

/-- A concrete environment whose live balance is zero and which resolves no
name. -/
def wEnvPoor : SendEnv :=
  { resolveName := fun _ => none, balanceBefore := 0,
    feeData := { maxFeePerGas := none, maxPriorityFeePerGas := none,
                 gasPrice := none },
    sendResult := TxSendResult.success "0xhash",
    waitResult := TxWaitResult.completed none, balanceAfter := 0 }

/-- Witness for C1: a zero live balance against a 0.01-ether request is
rejected with the insufficient-balance status and no broadcast. -/
theorem sendPayment_insufficient_balance_rejects_witness :
    (sendPayment wSt wEnvPoor).1.status =
      "Insufficient balance for the requested amount (does not include gas)." ∧
    List.filter isBroadcast (sendPayment wSt wEnvPoor).2 = [] :=
  sendPayment_insufficient_balance_rejects wSt wEnvPoor
    "0x1234567890abcdef1234567890abcdef12345678" (10 ^ 16)
    rfl rfl (by decide) (by decide) (by decide) (by decide)

/-- C2: an amount input that is empty, non-numeric, or not strictly
positive makes `sendPayment` set the invalid-amount status and return with
an empty external-call trace (no network or wallet call at all). -/
theorem sendPayment_invalid_amount_rejects
    (st : AppState) (env : SendEnv)
    (hconn : st.providerConnected = true) (hsig : st.hasSigner = true)
    (hbad : st.amount = "" ∨ jsNumberDec st.amount = none ∨
            ((jsNumberDec st.amount).getD (JsDecimal.mk 0 0)).mantissa ≤ 0) :
    (sendPayment st env).1.status = "Invalid amount (must be a number > 0)" ∧
    (sendPayment st env).2 = [] := by
  have hia : invalidAmount st.amount = true := by
    unfold invalidAmount
    rcases hbad with h | h | h
    · simp [h]
    · simp [h]
    · simp [JsDecimal.nonpos, h]
  simp [sendPayment, hconn, hsig, hia]

/-- Witness for C2: the amount `"-5"` is rejected with no external call. -/
theorem sendPayment_invalid_amount_rejects_witness :
    (sendPayment { wSt with amount := "-5" } wEnvPoor).1.status =
      "Invalid amount (must be a number > 0)" ∧
    (sendPayment { wSt with amount := "-5" } wEnvPoor).2 = [] :=
  sendPayment_invalid_amount_rejects { wSt with amount := "-5" } wEnvPoor
    rfl rfl (Or.inr (Or.inr (by decide)))

/-- C3: a recipient that is not a well-formed address goes through name
resolution, and when resolution yields no address `sendPayment` sets the
specific unresolvable-recipient status; its whole external trace is the
single resolution attempt, so nothing was broadcast. -/
theorem sendPayment_unresolvable_recipient_rejects
    (st : AppState) (env : SendEnv)
    (hconn : st.providerConnected = true) (hsig : st.hasSigner = true)
    (hamt : invalidAmount st.amount = false)
    (haddr : isAddress (jsTrim st.recipient) = false)
    (hres : env.resolveName (jsTrim st.recipient) = none) :
    (sendPayment st env).1.status =
      "Recipient is not a valid address or resolvable ENS name" ∧
    (sendPayment st env).2 = [WalletCall.resolveName (jsTrim st.recipient)] := by
  simp [sendPayment, resolveRecipientStep, hconn, hsig, hamt, haddr, hres]

/-- Witness for C3: the recipient `"vitalik.eth"` with an environment that
resolves nothing is rejected after exactly one resolution attempt. -/
theorem sendPayment_unresolvable_recipient_rejects_witness :
    (sendPayment { wSt with recipient := "vitalik.eth" } wEnvPoor).1.status =
      "Recipient is not a valid address or resolvable ENS name" ∧
    (sendPayment { wSt with recipient := "vitalik.eth" } wEnvPoor).2 =
      [WalletCall.resolveName "vitalik.eth"] :=
  sendPayment_unresolvable_recipient_rejects
    { wSt with recipient := "vitalik.eth" } wEnvPoor
    rfl rfl (by decide) (by decide) rfl

lemma sendPayment_broadcast_trace (st : AppState) (env : SendEnv)
    (r : String) (v : Nat)
    (hconn : st.providerConnected = true) (hsig : st.hasSigner = true)
    (hamt : invalidAmount st.amount = false)
    (hres : (resolveRecipientStep env (jsTrim st.recipient)).1 = some r)
    (hval : parseEther st.amount = some v)
    (hbal : ¬ env.balanceBefore < v) :
    ∃ tail,
      (sendPayment st env).2 =
        (resolveRecipientStep env (jsTrim st.recipient)).2 ++
        [WalletCall.getBalance st.address, WalletCall.getFeeData,
         WalletCall.sendTransaction (buildTx r v env.feeData)] ++ tail ∧
      (tail = [] ∨ tail = [WalletCall.txWait 1] ∨
       tail = [WalletCall.txWait 1, WalletCall.getBalance st.address]) := by
  unfold sendPayment
  rcases hrs : resolveRecipientStep env (jsTrim st.recipient) with ⟨o, tr⟩
  rw [hrs] at hres
  cases o with
  | none => exact absurd hres (by simp)
  | some a =>
    injection hres with har
    subst har
    rcases env.sendResult with hh | e
    · rcases env.waitResult with rr | e2
      · rcases rr with _ | rec
        · exact ⟨[WalletCall.txWait 1],
            by simp [hconn, hsig, hamt, hrs, hval, hbal], by simp⟩
        · by_cases hrc : rec.status = 1
          · exact ⟨[WalletCall.txWait 1, WalletCall.getBalance st.address],
              by simp [hconn, hsig, hamt, hrs, hval, hbal, hrc], by simp⟩
          · exact ⟨[WalletCall.txWait 1],
              by simp [hconn, hsig, hamt, hrs, hval, hbal, hrc], by simp⟩
      · exact ⟨[WalletCall.txWait 1],
          by simp [hconn, hsig, hamt, hrs, hval, hbal], by simp⟩
    · exact ⟨[],
        by simp [hconn, hsig, hamt, hrs, hval, hbal], by simp⟩

/-- C4: with amount `"0.01"`, a well-formed recipient and sufficient
balance, a submission whose broadcast is accepted performs exactly one
transaction broadcast followed by exactly one single-confirmation wait, in
that order, and no other broadcast or wait call. -/
theorem sendPayment_one_broadcast_one_wait
    (st : AppState) (env : SendEnv) (h : String)
    (hconn : st.providerConnected = true) (hsig : st.hasSigner = true)
    (hamt : st.amount = "0.01")
    (haddr : isAddress (jsTrim st.recipient) = true)
    (hbal : 10 ^ 16 ≤ env.balanceBefore)
    (hsend : env.sendResult = TxSendResult.success h) :
    List.filter isBroadcastOrWait (sendPayment st env).2 =
      [WalletCall.sendTransaction
        (buildTx (jsTrim st.recipient) (10 ^ 16) env.feeData),
       WalletCall.txWait 1] := by
  have hia : invalidAmount "0.01" = false := by decide
  have hv : parseEther "0.01" = some (10 ^ 16) := by decide
  have hnb : ¬ env.balanceBefore < 10000000000000000 := by
    refine Nat.not_lt.mpr (le_trans ?_ hbal)
    norm_num
  rcases hw : env.waitResult with rr | e
  · rcases rr with _ | rec
    · simp [sendPayment, resolveRecipientStep, hamt, hconn, hsig, hia, hv, hnb,
        haddr, hsend, hw, isBroadcastOrWait, isBroadcast, isWait]
    · by_cases hrc : rec.status = 1 <;>
        simp [sendPayment, resolveRecipientStep, hamt, hconn, hsig, hia, hv,
          hnb, haddr, hsend, hw, hrc, isBroadcastOrWait, isBroadcast, isWait]
  · simp [sendPayment, resolveRecipientStep, hamt, hconn, hsig, hia, hv, hnb,
      haddr, hsend, hw, isBroadcastOrWait, isBroadcast, isWait]

/-- A concrete environment with ample balance, a full fee suggestion, an
accepted broadcast and a confirmed receipt. -/
def wEnvRich : SendEnv :=
  { resolveName := fun _ => none, balanceBefore := 10 ^ 18,
    feeData := { maxFeePerGas := some 1000000000,
                 maxPriorityFeePerGas := some 1000000,
                 gasPrice := some 2000000000 },
    sendResult := TxSendResult.success "0xabc123",
    waitResult := TxWaitResult.completed
      (some { status := 1, blockNumber := 123456 }),
    balanceAfter := 98 * 10 ^ 16 }

/-- Witness for C4 at the concrete state and rich environment. -/
theorem sendPayment_one_broadcast_one_wait_witness :
    List.filter isBroadcastOrWait (sendPayment wSt wEnvRich).2 =
      [WalletCall.sendTransaction
        (buildTx (jsTrim wSt.recipient) (10 ^ 16) wEnvRich.feeData),
       WalletCall.txWait 1] :=
  sendPayment_one_broadcast_one_wait wSt wEnvRich "0xabc123"
    rfl rfl rfl (by decide) (by decide) rfl

/-- C5: when the broadcast is rejected by the user (thrown error carrying
code 4001), `sendPayment` reports the user-rejected status, leaves the
session fields (provider, signer, address, balance, network) unchanged,
keeps the recipient and amount form fields, and broadcasts exactly once
(no retry). -/
theorem sendPayment_user_rejection
    (st : AppState) (env : SendEnv) (r : String) (v : Nat) (m : String)
    (hconn : st.providerConnected = true) (hsig : st.hasSigner = true)
    (hamt : invalidAmount st.amount = false)
    (hres : (resolveRecipientStep env (jsTrim st.recipient)).1 = some r)
    (hval : parseEther st.amount = some v)
    (hbal : ¬ env.balanceBefore < v)
    (hsend : env.sendResult = TxSendResult.thrown (JsError.mk (some 4001) m)) :
    (sendPayment st env).1.status = "User rejected the transaction" ∧
    (sendPayment st env).1.providerConnected = st.providerConnected ∧
    (sendPayment st env).1.hasSigner = st.hasSigner ∧
    (sendPayment st env).1.address = st.address ∧
    (sendPayment st env).1.balance = st.balance ∧
    (sendPayment st env).1.network = st.network ∧
    (sendPayment st env).1.recipient = st.recipient ∧
    (sendPayment st env).1.amount = st.amount ∧
    (List.filter isBroadcast (sendPayment st env).2).length = 1 := by
  have htr := resolveRecipientStep_trace_filter env (jsTrim st.recipient)
    isBroadcast rfl
  unfold sendPayment
  rcases hrs : resolveRecipientStep env (jsTrim st.recipient) with ⟨o, tr⟩
  rw [hrs] at hres htr
  cases o with
  | none => exact absurd hres (by simp)
  | some a =>
    simp [hconn, hsig, hamt, hrs, hval, hbal, hsend, sendFailedStatus, htr,
      List.filter_append, isBroadcast]

/-- A concrete environment in which the wallet user rejects the broadcast
(code 4001). -/
def wEnvReject : SendEnv :=
  { resolveName := fun _ => none, balanceBefore := 10 ^ 18,
    feeData := { maxFeePerGas := some 1000000000,
                 maxPriorityFeePerGas := some 1000000,
                 gasPrice := none },
    sendResult := TxSendResult.thrown
      (JsError.mk (some 4001) "user denied transaction signature"),
    waitResult := TxWaitResult.completed none, balanceAfter := 0 }

/-- Witness for C5 at the concrete state and rejecting environment. -/
theorem sendPayment_user_rejection_witness :
    (sendPayment wSt wEnvReject).1.status = "User rejected the transaction" ∧
    (sendPayment wSt wEnvReject).1.providerConnected = wSt.providerConnected ∧
    (sendPayment wSt wEnvReject).1.hasSigner = wSt.hasSigner ∧
    (sendPayment wSt wEnvReject).1.address = wSt.address ∧
    (sendPayment wSt wEnvReject).1.balance = wSt.balance ∧
    (sendPayment wSt wEnvReject).1.network = wSt.network ∧
    (sendPayment wSt wEnvReject).1.recipient = wSt.recipient ∧
    (sendPayment wSt wEnvReject).1.amount = wSt.amount ∧
    (List.filter isBroadcast (sendPayment wSt wEnvReject).2).length = 1 :=
  sendPayment_user_rejection wSt wEnvReject
    "0x1234567890abcdef1234567890abcdef12345678" (10 ^ 16)
    "user denied transaction signature"
    rfl rfl (by decide) (by decide) (by decide) (by decide) rfl

/-- C6: on every submission that reaches the broadcast point, the fee
suggestion is fetched before broadcasting (the trace restricted to fee
fetches and broadcasts is exactly the fetch followed by the one broadcast),
and the broadcast transaction carries the max-fee/max-priority-fee pair
when the suggestion supplies both (truthy) values, else the flat gas price
when supplied; the two fee shapes never appear together. -/
theorem sendPayment_fee_shape
    (st : AppState) (env : SendEnv) (r : String) (v : Nat)
    (hconn : st.providerConnected = true) (hsig : st.hasSigner = true)
    (hamt : invalidAmount st.amount = false)
    (hres : (resolveRecipientStep env (jsTrim st.recipient)).1 = some r)
    (hval : parseEther st.amount = some v)
    (hbal : ¬ env.balanceBefore < v) :
    List.filter isFeeOrBroadcast (sendPayment st env).2 =
      [WalletCall.getFeeData,
       WalletCall.sendTransaction (buildTx r v env.feeData)] ∧
    ((feeTruthy env.feeData.maxFeePerGas &&
        feeTruthy env.feeData.maxPriorityFeePerGas) = true →
      (buildTx r v env.feeData).maxFeePerGas = env.feeData.maxFeePerGas ∧
      (buildTx r v env.feeData).maxPriorityFeePerGas =
        env.feeData.maxPriorityFeePerGas ∧
      (buildTx r v env.feeData).gasPrice = none) ∧
    ((feeTruthy env.feeData.maxFeePerGas &&
        feeTruthy env.feeData.maxPriorityFeePerGas) = false →
      feeTruthy env.feeData.gasPrice = true →
      (buildTx r v env.feeData).gasPrice = env.feeData.gasPrice ∧
      (buildTx r v env.feeData).maxFeePerGas = none ∧
      (buildTx r v env.feeData).maxPriorityFeePerGas = none) ∧
    ¬((buildTx r v env.feeData).gasPrice.isSome = true ∧
      ((buildTx r v env.feeData).maxFeePerGas.isSome = true ∨
       (buildTx r v env.feeData).maxPriorityFeePerGas.isSome = true)) := by
  obtain ⟨tail, htrace, htail⟩ :=
    sendPayment_broadcast_trace st env r v hconn hsig hamt hres hval hbal
  have h1 := resolveRecipientStep_trace_filter env (jsTrim st.recipient)
    isFeeOrBroadcast rfl
  have h2 : List.filter isFeeOrBroadcast tail = [] := by
    rcases htail with rfl | rfl | rfl <;> simp [isFeeOrBroadcast]
  refine ⟨?_, ?_, ?_, ?_⟩
  · rw [htrace]
    simp [List.filter_append, h1, h2, isFeeOrBroadcast]
  · intro hpair
    unfold buildTx
    simp [hpair]
  · intro hpair hgas
    unfold buildTx
    simp [hpair, hgas]
  · unfold buildTx
    rcases hpair : (feeTruthy env.feeData.maxFeePerGas &&
        feeTruthy env.feeData.maxPriorityFeePerGas) with _ | _
    · rcases hgas : feeTruthy env.feeData.gasPrice with _ | _ <;> simp
    · simp

/-- Witness for C6 at the concrete state and rich environment. -/
theorem sendPayment_fee_shape_witness :
    List.filter isFeeOrBroadcast (sendPayment wSt wEnvRich).2 =
      [WalletCall.getFeeData,
       WalletCall.sendTransaction
         (buildTx "0x1234567890abcdef1234567890abcdef12345678" (10 ^ 16)
           wEnvRich.feeData)] ∧
    ((feeTruthy wEnvRich.feeData.maxFeePerGas &&
        feeTruthy wEnvRich.feeData.maxPriorityFeePerGas) = true →
      (buildTx "0x1234567890abcdef1234567890abcdef12345678" (10 ^ 16)
          wEnvRich.feeData).maxFeePerGas = wEnvRich.feeData.maxFeePerGas ∧
      (buildTx "0x1234567890abcdef1234567890abcdef12345678" (10 ^ 16)
          wEnvRich.feeData).maxPriorityFeePerGas =
        wEnvRich.feeData.maxPriorityFeePerGas ∧
      (buildTx "0x1234567890abcdef1234567890abcdef12345678" (10 ^ 16)
          wEnvRich.feeData).gasPrice = none) ∧
    ((feeTruthy wEnvRich.feeData.maxFeePerGas &&
        feeTruthy wEnvRich.feeData.maxPriorityFeePerGas) = false →
      feeTruthy wEnvRich.feeData.gasPrice = true →
      (buildTx "0x1234567890abcdef1234567890abcdef12345678" (10 ^ 16)
          wEnvRich.feeData).gasPrice = wEnvRich.feeData.gasPrice ∧
      (buildTx "0x1234567890abcdef1234567890abcdef12345678" (10 ^ 16)
          wEnvRich.feeData).maxFeePerGas = none ∧
      (buildTx "0x1234567890abcdef1234567890abcdef12345678" (10 ^ 16)
          wEnvRich.feeData).maxPriorityFeePerGas = none) ∧
    ¬((buildTx "0x1234567890abcdef1234567890abcdef12345678" (10 ^ 16)
          wEnvRich.feeData).gasPrice.isSome = true ∧
      ((buildTx "0x1234567890abcdef1234567890abcdef12345678" (10 ^ 16)
          wEnvRich.feeData).maxFeePerGas.isSome = true ∨
       (buildTx "0x1234567890abcdef1234567890abcdef12345678" (10 ^ 16)
          wEnvRich.feeData).maxPriorityFeePerGas.isSome = true)) :=
  sendPayment_fee_shape wSt wEnvRich
    "0x1234567890abcdef1234567890abcdef12345678" (10 ^ 16)
    rfl rfl (by decide) (by decide) (by decide) (by decide)

/-- C8: a successful broadcast whose awaited receipt reports status 1 makes
`sendPayment` refresh the displayed balance from a fresh provider balance
query (the final external call) and clear both form fields. -/
theorem sendPayment_confirmed_refreshes_and_clears
    (st : AppState) (env : SendEnv) (r : String) (v : Nat) (h : String)
    (bn : Nat)
    (hconn : st.providerConnected = true) (hsig : st.hasSigner = true)
    (hamt : invalidAmount st.amount = false)
    (hres : (resolveRecipientStep env (jsTrim st.recipient)).1 = some r)
    (hval : parseEther st.amount = some v)
    (hbal : ¬ env.balanceBefore < v)
    (hsend : env.sendResult = TxSendResult.success h)
    (hwait : env.waitResult =
      TxWaitResult.completed (some (TxReceipt.mk 1 bn))) :
    (sendPayment st env).1.balance = formatEther env.balanceAfter ∧
    (sendPayment st env).1.recipient = "" ∧
    (sendPayment st env).1.amount = "" ∧
    (sendPayment st env).2 =
      (resolveRecipientStep env (jsTrim st.recipient)).2 ++
      [WalletCall.getBalance st.address, WalletCall.getFeeData,
       WalletCall.sendTransaction (buildTx r v env.feeData),
       WalletCall.txWait 1, WalletCall.getBalance st.address] := by
  unfold sendPayment
  rcases hrs : resolveRecipientStep env (jsTrim st.recipient) with ⟨o, tr⟩
  rw [hrs] at hres
  cases o with
  | none => exact absurd hres (by simp)
  | some a =>
    injection hres with har
    subst har
    simp [hconn, hsig, hamt, hrs, hval, hbal, hsend, hwait]

/-- Witness for C8 at the concrete state and rich environment. -/
theorem sendPayment_confirmed_refreshes_and_clears_witness :
    (sendPayment wSt wEnvRich).1.balance = formatEther wEnvRich.balanceAfter ∧
    (sendPayment wSt wEnvRich).1.recipient = "" ∧
    (sendPayment wSt wEnvRich).1.amount = "" ∧
    (sendPayment wSt wEnvRich).2 =
      (resolveRecipientStep wEnvRich (jsTrim wSt.recipient)).2 ++
      [WalletCall.getBalance wSt.address, WalletCall.getFeeData,
       WalletCall.sendTransaction
         (buildTx "0x1234567890abcdef1234567890abcdef12345678" (10 ^ 16)
           wEnvRich.feeData),
       WalletCall.txWait 1, WalletCall.getBalance wSt.address] :=
  sendPayment_confirmed_refreshes_and_clears wSt wEnvRich
    "0x1234567890abcdef1234567890abcdef12345678" (10 ^ 16) "0xabc123" 123456
    rfl rfl (by decide) (by decide) (by decide) (by decide) rfl rfl

/-- C10: every `sendPayment` invocation that enters the `try` block — in
particular every one that raises the sending flag, which happens only
inside it — finishes with the sending flag lowered, on every path
(confirmed success, failed receipt, null receipt, thrown error, user
rejection, unresolvable recipient, malformed value, insufficient balance):
the `finally` block always runs. -/
theorem sendPayment_sending_always_reset
    (st : AppState) (env : SendEnv)
    (hconn : st.providerConnected = true) (hsig : st.hasSigner = true)
    (hamt : invalidAmount st.amount = false) :
    (sendPayment st env).1.sending = false := by
  unfold sendPayment
  rcases hrs : resolveRecipientStep env (jsTrim st.recipient) with ⟨o, tr⟩
  cases o with
  | none => simp [hconn, hsig, hamt, hrs]
  | some a =>
    rcases hpe : parseEther st.amount with _ | v
    · simp [hconn, hsig, hamt, hrs, hpe]
    · by_cases hb : env.balanceBefore < v
      · simp [hconn, hsig, hamt, hrs, hpe, hb]
      · rcases env.sendResult with hh | e
        · rcases env.waitResult with rr | e2
          · rcases rr with _ | rec
            · simp [hconn, hsig, hamt, hrs, hpe, hb]
            · by_cases hrc : rec.status = 1 <;>
                simp [hconn, hsig, hamt, hrs, hpe, hb, hrc]
          · simp [hconn, hsig, hamt, hrs, hpe, hb]
        · simp [hconn, hsig, hamt, hrs, hpe, hb]

/-- Witness for C10 at the concrete state and rich environment (a run that
raises the sending flag and confirms). -/
theorem sendPayment_sending_always_reset_witness :
    (sendPayment wSt wEnvRich).1.sending = false :=
  sendPayment_sending_always_reset wSt wEnvRich rfl rfl (by decide)

/-- The request is a network-switch or network-add request. -/
def isSwitchOrAdd : RpcCall → Bool
  | RpcCall.switchChain _ => true
  | RpcCall.addChain _ => true
  | _ => false

/-- C7: during `connectWallet`, when the active chain differs from Base
(8453) a network-switch request is issued; when that switch request fails
and the subsequent network-add request (carrying the full Base registration
parameters: name, native currency, RPC URL, block-explorer URL) succeeds,
the switch is retried — the trace restricted to switch/add requests is
exactly switch, add, switch. -/
theorem connectWallet_switch_add_retry
    (st : AppState) (env : ConnectEnv) (net : Network) (e : JsError)
    (hconn : st.providerConnected = true)
    (hra : env.requestAccounts = Except.ok ())
    (hn1 : env.getNetwork1 = Except.ok net)
    (hne : net.chainId ≠ BASE_CHAIN_ID)
    (hsw : env.switchAttempt1 = Except.error e)
    (hadd : env.addAttempt = Except.ok ()) :
    List.filter isSwitchOrAdd (connectWallet st env).2 =
      [RpcCall.switchChain (hexValue BASE_CHAIN_ID),
       RpcCall.addChain baseChainParams,
       RpcCall.switchChain (hexValue BASE_CHAIN_ID)] := by
  unfold connectWallet attemptSwitchToBase
  rcases hs2 : env.switchAttempt2 with u | e2 <;>
    rcases hn2 : env.getNetwork2 with n2 | e3 <;>
      simp [hconn, hra, hn1, hne, hsw, hadd, hs2, hn2, isSwitchOrAdd]

/-- A concrete signer-setup environment where every call succeeds. -/
def wSignerEnv : SetupSignerEnv :=
  { getSigner := Except.ok (),
    getAddress := Except.ok "0xabcdefabcdefabcdefabcdefabcdefabcdefabcd",
    getBalance := Except.ok (10 ^ 18),
    getNetwork := Except.ok { chainId := 8453, name := "base" } }

/-- A concrete connect environment: wallet on Ethereum mainnet, the first
switch request fails with the unknown-chain code, the add succeeds, the
retried switch succeeds. -/
def wConnEnv : ConnectEnv :=
  { requestAccounts := Except.ok (),
    getNetwork1 := Except.ok { chainId := 1, name := "mainnet" },
    switchAttempt1 := Except.error (JsError.mk (some 4902) "Unrecognized chain ID"),
    addAttempt := Except.ok (),
    switchAttempt2 := Except.ok (),
    getNetwork2 := Except.ok { chainId := 8453, name := "base" },
    signerEnv := wSignerEnv }

/-- Witness for C7 at a concrete state and connect environment. -/
theorem connectWallet_switch_add_retry_witness :
    List.filter isSwitchOrAdd (connectWallet wSt wConnEnv).2 =
      [RpcCall.switchChain (hexValue BASE_CHAIN_ID),
       RpcCall.addChain baseChainParams,
       RpcCall.switchChain (hexValue BASE_CHAIN_ID)] :=
  connectWallet_switch_add_retry wSt wConnEnv
    { chainId := 1, name := "mainnet" }
    (JsError.mk (some 4902) "Unrecognized chain ID")
    rfl rfl rfl (by decide) rfl rfl

/-- C9: an accounts-changed event carrying an empty account list clears the
session: the address becomes the empty string, the balance the zero display
value `"0.0"`, and the signer and network are cleared, whatever the state,
the injected provider, and the signer environment were. -/
theorem accountsChanged_empty_clears_session
    (st : AppState) (hasInj : Bool) (senv : SetupSignerEnv) :
    (accountsChanged st hasInj [] senv).address = "" ∧
    (accountsChanged st hasInj [] senv).balance = "0.0" ∧
    (accountsChanged st hasInj [] senv).hasSigner = false ∧
    (accountsChanged st hasInj [] senv).network = none := by
  simp [accountsChanged, resetConnection]

end BasePay
